import Mathlib

/-!
Verification of `dovetailstoragegrid.py` (DovetailStorageGrid).

The source is a constructive-solid-geometry pipeline: pure Python methods
that assemble an opaque `Solid` by calling a geometry kernel (extrude,
boolean union/difference/intersection, translate/rotate, fillet, chamfer,
shell).  We embed it shallowly in two layers:

* a syntactic layer: an inductive `Solid` expression tree over `ℚ`
  (parameters are modelled as exact rationals), with one constructor per
  kernel call the source makes; each Python method becomes a Lean
  function producing the exact tree of kernel calls the source performs;

* a semantic layer: a denotation `denote : Kernel → Solid → Set Pt`
  into sets of points of `ℝ × ℝ × ℝ`.  Boolean operations and affine
  placement have their standard set semantics.  The remaining kernel
  operations (chamfer, fillet, shell, sketch primitives) are fields of a
  `Kernel` record, because the geometry kernel is an external collaborator
  whose code is not part of this repository; `stdKernel` instantiates them
  with semantics modelled from the specification's description of each
  operation.  Theorems that depend only on boolean/affine semantics are
  proved for every `Kernel`.
-/

namespace StorageGrid

/-- Construction parameters of `DovetailStorageGrid.__init__` (the fields the
constructor stores on `self`).  Dimensions in mm, angle in degrees; modelled
as exact rationals. -/
structure GridSpec where
  grid_x : ℚ
  grid_y : ℚ
  grid_z : ℚ
  tray_gap : ℚ
  corner_fillet : ℚ
  chamfer_top : ℚ
  chamfer_bottom : ℚ
  dovetail_protrusion : ℚ
  dovetail_length_fraction : ℚ
  dovetail_angle : ℚ
  dovetail_gap : ℚ
  deriving DecidableEq, Repr

/-- Validity of a parameter set, per the data model of the specification:
positive cell sizes, nonnegative gaps and fillet/chamfer sizes, positive
protrusion, length fraction in (0,1], angle in (0,180) degrees. -/
def GridSpec.Valid (g : GridSpec) : Prop :=
  0 < g.grid_x ∧ 0 < g.grid_y ∧ 0 < g.grid_z ∧
  0 ≤ g.tray_gap ∧ 0 ≤ g.corner_fillet ∧
  0 ≤ g.chamfer_top ∧ 0 ≤ g.chamfer_bottom ∧
  0 < g.dovetail_protrusion ∧
  0 < g.dovetail_length_fraction ∧ g.dovetail_length_fraction ≤ 1 ∧
  0 < g.dovetail_angle ∧ g.dovetail_angle < 180 ∧
  0 ≤ g.dovetail_gap

instance (g : GridSpec) : Decidable g.Valid := by
  unfold GridSpec.Valid; infer_instance

/-- `DovetailStorageGrid.__init__`: raises `ValueError` when `tray_gap < 0`,
otherwise stores every parameter unmodified.  Fallible construction is
modelled with `Except`; the defaults are the Python keyword defaults. -/
def GridSpec.init (x : ℚ := 15) (y : ℚ := 15) (z : ℚ := 75)
    (tray_gap : ℚ := 1/10) (corner_fillet : ℚ := 2)
    (chamfer_top : ℚ := 1) (chamfer_bottom : ℚ := 3/2)
    (dovetail_protrusion : ℚ := 5/2)
    (dovetail_length_fraction : ℚ := 1/2)
    (dovetail_angle : ℚ := 60) (dovetail_gap : ℚ := 1/5) :
    Except String GridSpec :=
  if tray_gap < 0 then
    Except.error "Trays with negative gaps will not fit together."
  else
    Except.ok ⟨x, y, z, tray_gap, corner_fillet, chamfer_top, chamfer_bottom,
      dovetail_protrusion, dovetail_length_fraction, dovetail_angle,
      dovetail_gap⟩

/-- Solid expression trees: one constructor per geometry-kernel operation the
source invokes.

* `quad v0 v1 v2 v3 h`: `Workplane("XY")` closed 4-vertex polyline extruded
  from z = 0 to z = h (the source only builds axis-aligned rectangles
  this way).
* `trapPrism w th a1 h`: `sketch().trapezoid(w, th, a1).finalize()`
  extruded to height `h`.
* `translate dx dy dz s`, `rotZ deg s`: affine placement;
  `rotZ` is `rotate((0,0,0), (0,0,1), deg)`.
* `filletVert r s`: fillet of the vertical edges
  (selectors `edges("|Z")` and `edges("not (>Z or <Z)")`).
* `chamferTopF c s` / `chamferBotF c s`: `faces("+Z").chamfer(c)` /
  `faces("-Z").chamfer(c)`.
* `shellTB t s`: `faces("+Z or -Z").shell(t)` (used by `_grow_xy_by`).
* `shellTopF t s`: `faces(">Z").shell(t)` (wall shelling).
* `labelWedge lh p gz depth`: the label-area wedge cut of `label_tray`,
  a triangle in the YZ plane with vertices `(lh/√2, gz)`, `(-p, gz)`,
  `(-p, gz - p - lh/√2)` extruded along X over `[0, depth]`.
* `labelLoft lh p gz o1 o2`: the corrective loft cut of `label_tray`
  between its two YZ profiles at X-offsets `o1` and `o2`. -/
inductive Solid where
  | quad (v0 v1 v2 v3 : ℚ × ℚ) (h : ℚ)
  | trapPrism (w th a1 h : ℚ)
  | union (s t : Solid)
  | diff (s t : Solid)
  | inter (s t : Solid)
  | translate (dx dy dz : ℚ) (s : Solid)
  | rotZ (deg : ℚ) (s : Solid)
  | filletVert (r : ℚ) (s : Solid)
  | chamferTopF (c : ℚ) (s : Solid)
  | chamferBotF (c : ℚ) (s : Solid)
  | shellTB (t : ℚ) (s : Solid)
  | shellTopF (t : ℚ) (s : Solid)
  | labelWedge (lh p gz depth : ℚ)
  | labelLoft (lh p gz o1 o2 : ℚ)
  deriving DecidableEq, Repr

/-- `DovetailStorageGrid.nominal_volume`: the grid-cell footprint polyline
`(0,0) → (0, grid_y·y) → (grid_x·x, grid_y·y) → (grid_x·x, 0)`, closed and
extruded to `grid_z`. -/
def nominal_volume (g : GridSpec) (x : ℕ := 1) (y : ℕ := 1) : Solid :=
  Solid.quad (0, 0) (0, g.grid_y * (y : ℚ))
    (g.grid_x * (x : ℚ), g.grid_y * (y : ℚ)) (g.grid_x * (x : ℚ), 0)
    g.grid_z

/-- `DovetailStorageGrid._grow_xy_by`: grow/shrink a shape in X/Y using the
shell of its top/bottom faces; negative amounts subtract the shell, positive
amounts add it, zero falls through unchanged. -/
def _grow_xy_by (shape : Solid) (amount : ℚ) : Solid :=
  if amount < 0 then Solid.diff shape (Solid.shellTB amount shape)
  else if 0 < amount then Solid.union shape (Solid.shellTB amount shape)
  else shape

/-- `DovetailStorageGrid.bounding_volume`: the source first computes a grown
nominal volume, then immediately rebuilds `bounds` from scratch as the sharp
rectangle from `(-p, -p)` to `(grid_x·x + p, grid_y·y + p)` (the first
assignment is dead and is kept here, shadowed, to mirror the source), then
chamfers the top and bottom faces and fillets the vertical edges. -/
def bounding_volume (g : GridSpec) (x : ℕ := 1) (y : ℕ := 1) : Solid :=
  let bounds := _grow_xy_by (nominal_volume g x y) g.dovetail_protrusion
  let p := g.dovetail_protrusion
  let bounds := Solid.quad (-p, -p) (-p, p + g.grid_y * (y : ℚ))
    (p + g.grid_x * (x : ℚ), p + g.grid_y * (y : ℚ))
    (p + g.grid_x * (x : ℚ), -p) g.grid_z
  let bounds := Solid.chamferTopF (g.dovetail_protrusion + g.chamfer_top) bounds
  let bounds := Solid.chamferBotF (g.dovetail_protrusion + g.chamfer_bottom) bounds
  let bounds := Solid.filletVert g.corner_fillet bounds
  bounds

/-- `DovetailStorageGrid._dovetail`: trapezoid of width `width`, thickness
`dovetail_protrusion + tray_gap + dovetail_gap·2`, angle `dovetail_angle`,
extruded to `grid_z`, translated by `(0, -(dovetail_protrusion - tray_gap)/2, 0)`. -/
def _dovetail (g : GridSpec) (width : ℚ) : Solid :=
  Solid.translate 0 (-(g.dovetail_protrusion - g.tray_gap)/2) 0
    (Solid.trapPrism width
      (g.dovetail_protrusion + g.tray_gap + g.dovetail_gap * 2)
      g.dovetail_angle g.grid_z)

/-- `DovetailStorageGrid._dovetail_y`: dovetail for the ±Y faces, of width
`grid_x · dovetail_length_fraction`. -/
def _dovetail_y (g : GridSpec) : Solid :=
  _dovetail g (g.grid_x * g.dovetail_length_fraction)

/-- `DovetailStorageGrid._dovetail_x`: dovetail for the ±X faces, of width
`grid_y · dovetail_length_fraction`, rotated by -90° about the vertical axis
through the origin. -/
def _dovetail_x (g : GridSpec) : Solid :=
  Solid.rotZ (-90) (_dovetail g (g.grid_y * g.dovetail_length_fraction))

/-- `DovetailStorageGrid._tray`: nominal volume, vertical-edge fillet,
optional in-plane shrink by `tray_gap`, one tab/slot pair per grid line along
each axis (a Python `for` over `range(x)` and `range(y)`, modelled as a left
fold over `List.range`), and a final intersection with the bounding volume. -/
def _tray (g : GridSpec) (x : ℕ := 1) (y : ℕ := 1) : Solid :=
  let tray := nominal_volume g x y
  let tray := Solid.filletVert g.corner_fillet tray
  let tray := if 0 < g.tray_gap then _grow_xy_by tray (-g.tray_gap) else tray
  let tray_x := g.grid_x * (x : ℚ)
  let tray_y := g.grid_y * (y : ℚ)
  let dovetail_y := _dovetail_y g
  let tray := (List.range x).foldl (fun t (x_index : ℕ) =>
    Solid.diff
      (Solid.union t
        (Solid.translate (g.grid_x/2 + (x_index : ℚ) * g.grid_x) 0 0
          (_grow_xy_by dovetail_y (-g.dovetail_gap))))
      (Solid.translate (g.grid_x/2 + (x_index : ℚ) * g.grid_x) tray_y 0
        (_grow_xy_by dovetail_y g.dovetail_gap))) tray
  let dovetail_x := _dovetail_x g
  let tray := (List.range y).foldl (fun t (y_index : ℕ) =>
    Solid.diff
      (Solid.union t
        (Solid.translate 0 (g.grid_y/2 + (y_index : ℚ) * g.grid_y) 0
          (_grow_xy_by dovetail_x (-g.dovetail_gap))))
      (Solid.translate tray_x (g.grid_y/2 + (y_index : ℚ) * g.grid_y) 0
        (_grow_xy_by dovetail_x g.dovetail_gap))) tray
  Solid.inter tray (bounding_volume g x y)

/-- `DovetailStorageGrid.basic_tray`: the tray solid, shelled from its top
face by `-wall_thickness` when `wall_thickness > 0`, returned solid
otherwise. -/
def basic_tray (g : GridSpec) (x : ℕ := 1) (y : ℕ := 1)
    (wall_thickness : ℚ := 0) : Solid :=
  let tray := _tray g x y
  if 0 < wall_thickness then Solid.shellTopF (-wall_thickness) tray else tray

/-- `DovetailStorageGrid.label_tray`: the tray solid minus the label wedge
(extruded over `[0, x·grid_x]`) minus the corrective loft between the YZ
profiles at X-offsets `x·grid_x` and
`x·grid_x - dovetail_protrusion - dovetail_gap - tray_gap`, then the same
optional wall shelling as `basic_tray`.  (`label_size = label_height/√2` is
computed inside the wedge constructors' semantics.) -/
def label_tray (g : GridSpec) (x : ℕ := 1) (y : ℕ := 1)
    (wall_thickness : ℚ := 0) (label_height : ℚ := 10) : Solid :=
  let tray := Solid.diff (_tray g x y)
    (Solid.labelWedge label_height g.dovetail_protrusion g.grid_z
      (g.grid_x * (x : ℚ)))
  let tray := Solid.diff tray
    (Solid.labelLoft label_height g.dovetail_protrusion g.grid_z
      (g.grid_x * (x : ℚ))
      (g.grid_x * (x : ℚ) - g.dovetail_protrusion - g.dovetail_gap - g.tray_gap))
  if 0 < wall_thickness then Solid.shellTopF (-wall_thickness) tray else tray

/-- The Python default parameter set of `DovetailStorageGrid.__init__`
(`x = y = 15`, `z = 75`, `tray_gap = 0.1`, `corner_fillet = 2`,
`chamfer_top = 1`, `chamfer_bottom = 1.5`, `dovetail_protrusion = 2.5`,
`dovetail_length_fraction = 0.5`, `dovetail_angle = 60`,
`dovetail_gap = 0.2`). -/
def defaultGrid : GridSpec :=
  ⟨15, 15, 75, 1/10, 2, 1, 3/2, 5/2, 1/2, 60, 1/5⟩

/-- A parameter set with non-square cells (`grid_y = 20`), otherwise the
defaults. -/
def rectGrid : GridSpec :=
  ⟨15, 20, 75, 1/10, 2, 1, 3/2, 5/2, 1/2, 60, 1/5⟩

/-- The default parameters with both extra chamfer sizes set to zero (the
bounding chamfers then cut exactly down to the nominal footprint). -/
def flushGrid : GridSpec :=
  ⟨15, 15, 75, 1/10, 2, 0, 0, 5/2, 1/2, 60, 1/5⟩

/-! Semantic layer: solids as sets of points of `ℝ × ℝ × ℝ`. -/

/-- A point of 3-space. -/
abbrev Pt : Type := ℝ × ℝ × ℝ

/-- Semantics of the closed 4-vertex polyline extrusion: the bounding box of
the four vertices over heights `[0, h]`.  Modelled from the spec: the source
builds only axis-aligned rectangles with this polyline (§4.1), for which the
box of the vertices is the exact extruded region. -/
def quadSet (v0 v1 v2 v3 : ℚ × ℚ) (h : ℚ) : Set Pt :=
  {p | min (min (v0.1 : ℝ) (v1.1 : ℝ)) (min (v2.1 : ℝ) (v3.1 : ℝ)) ≤ p.1 ∧
    p.1 ≤ max (max (v0.1 : ℝ) (v1.1 : ℝ)) (max (v2.1 : ℝ) (v3.1 : ℝ)) ∧
    min (min (v0.2 : ℝ) (v1.2 : ℝ)) (min (v2.2 : ℝ) (v3.2 : ℝ)) ≤ p.2.1 ∧
    p.2.1 ≤ max (max (v0.2 : ℝ) (v1.2 : ℝ)) (max (v2.2 : ℝ) (v3.2 : ℝ)) ∧
    0 ≤ p.2.2 ∧ p.2.2 ≤ (h : ℝ)}

/-- Semantics of the geometry-kernel operations the source treats as an
opaque capability interface (the kernel's own code is not part of this
repository).  A theorem quantified over `Kernel` holds for every semantics
of those operations. -/
structure Kernel where
  trapPrism : ℝ → ℝ → ℝ → ℝ → Set Pt
  filletVert : ℝ → Set Pt → Set Pt
  chamferTop : ℝ → Set Pt → Set Pt
  chamferBot : ℝ → Set Pt → Set Pt
  shellTB : ℝ → Set Pt → Set Pt
  shellTopF : ℝ → Set Pt → Set Pt
  labelWedge : ℝ → ℝ → ℝ → ℝ → Set Pt
  labelLoft : ℝ → ℝ → ℝ → ℝ → ℝ → Set Pt

/-- Denotation of a solid expression: boolean operations are set operations,
`translate`/`rotZ` are the affine placements (membership via the inverse
map), all remaining kernel operations are interpreted by `K`. -/
def denote (K : Kernel) : Solid → Set Pt
  | .quad v0 v1 v2 v3 h => quadSet v0 v1 v2 v3 h
  | .trapPrism w th a1 h => K.trapPrism w th a1 h
  | .union s t => denote K s ∪ denote K t
  | .diff s t => denote K s \ denote K t
  | .inter s t => denote K s ∩ denote K t
  | .translate dx dy dz s =>
      {p | (p.1 - (dx : ℝ), p.2.1 - (dy : ℝ), p.2.2 - (dz : ℝ)) ∈ denote K s}
  | .rotZ deg s =>
      {p | (Real.cos ((deg : ℝ) * Real.pi / 180) * p.1 +
              Real.sin ((deg : ℝ) * Real.pi / 180) * p.2.1,
            -Real.sin ((deg : ℝ) * Real.pi / 180) * p.1 +
              Real.cos ((deg : ℝ) * Real.pi / 180) * p.2.1,
            p.2.2) ∈ denote K s}
  | .filletVert r s => K.filletVert r (denote K s)
  | .chamferTopF c s => K.chamferTop c (denote K s)
  | .chamferBotF c s => K.chamferBot c (denote K s)
  | .shellTB t s => K.shellTB t (denote K s)
  | .shellTopF t s => K.shellTopF t (denote K s)
  | .labelWedge lh p gz depth => K.labelWedge lh p gz depth
  | .labelLoft lh p gz o1 o2 => K.labelLoft lh p gz o1 o2

/-- Modelled from the spec: the trapezoid sketch primitive (kernel code, not
in this repository).  Width `w` at the centerline `y = 0`, thickness `th`,
legs at angle `a1` (degrees) from the width direction, flaring toward `-y`
(the dovetail tip), extruded over heights `[0, h]`. -/
def trapPrismSet (w th a1 h : ℝ) : Set Pt :=
  {p | |p.2.1| ≤ th / 2 ∧ 0 ≤ p.2.2 ∧ p.2.2 ≤ h ∧
    |p.1| ≤ w / 2 - p.2.1 / Real.tan (a1 * Real.pi / 180)}

/-- Modelled from the spec: fillet of the vertical edges of a solid (kernel
code, not in this repository), as the rolling-ball opening of the solid's
plan-view footprint: a point survives when some in-plane disk of radius `r`
contains it and fits inside the footprint. -/
def filletVertSet (r : ℝ) (S : Set Pt) : Set Pt :=
  {p | p ∈ S ∧ ∃ a b : ℝ, (p.1 - a)^2 + (p.2.1 - b)^2 ≤ r^2 ∧
    ∀ q1 q2 : ℝ, (q1 - a)^2 + (q2 - b)^2 ≤ r^2 → ∃ z, (q1, q2, z) ∈ S}

/-- Modelled from the spec: chamfer of size `c` on the top-face edges (kernel
code, not in this repository).  A point survives when every probe that moves
up by `e` and sideways by at most `c - e` stays explicable inside the solid:
either the sideways-shifted point or the raised point is still in the solid.
On a rectangular prism this keeps exactly the points whose horizontal
distance to a side wall plus vertical distance to the top is at least `c`. -/
def chamferTopSet (c : ℝ) (S : Set Pt) : Set Pt :=
  {p | p ∈ S ∧ ∀ u v e : ℝ, 0 ≤ e → e ≤ c → u^2 + v^2 ≤ (c - e)^2 →
    ((p.1 + u, p.2.1 + v, p.2.2) ∈ S ∨ (p.1, p.2.1, p.2.2 + e) ∈ S)}

/-- Modelled from the spec: chamfer of size `c` on the bottom-face edges,
mirror image of `chamferTopSet`. -/
def chamferBotSet (c : ℝ) (S : Set Pt) : Set Pt :=
  {p | p ∈ S ∧ ∀ u v e : ℝ, 0 ≤ e → e ≤ c → u^2 + v^2 ≤ (c - e)^2 →
    ((p.1 + u, p.2.1 + v, p.2.2) ∈ S ∨ (p.1, p.2.1, p.2.2 - e) ∈ S)}

/-- Modelled from the spec: the shell of the top/bottom faces by a signed
thickness `t` (kernel code, not in this repository).  For `t ≥ 0` it is the
in-plane outward layer of thickness `t` (points outside the solid that are
within in-plane distance `t` of a solid point at the same height); for
`t < 0` the inward boundary layer of thickness `|t|`.  Either way every
shell point shares its height with a point of the solid. -/
def shellTBSet (t : ℝ) (S : Set Pt) : Set Pt :=
  {p | (0 ≤ t ∧ p ∉ S ∧
      ∃ u v : ℝ, u^2 + v^2 ≤ t^2 ∧ (p.1 + u, p.2.1 + v, p.2.2) ∈ S) ∨
    (t < 0 ∧ p ∈ S ∧
      ∃ u v : ℝ, u^2 + v^2 ≤ t^2 ∧ (p.1 + u, p.2.1 + v, p.2.2) ∉ S)}

/-- Modelled from the spec: shelling a solid inward from its top face by a
(negative) thickness `t` (kernel code, not in this repository): the boundary
layer of thickness `|t|`. -/
def shellTopSet (t : ℝ) (S : Set Pt) : Set Pt :=
  {p | p ∈ S ∧ ∃ q : Pt, q ∉ S ∧
    (p.1 - q.1)^2 + (p.2.1 - q.2.1)^2 + (p.2.2 - q.2.2)^2 ≤ t^2}

/-- Modelled from the spec: the label wedge of `label_tray` (its YZ polyline
is cut by kernel code not in this repository).  With `ls = lh/√2`, the
triangle `{(y, z) | -p ≤ y, z ≤ gz, y + gz - ls ≤ z}` extruded over
`x ∈ [0, depth]`. -/
def labelWedgeSet (lh p gz depth : ℝ) : Set Pt :=
  {q | 0 ≤ q.1 ∧ q.1 ≤ depth ∧ -p ≤ q.2.1 ∧ q.2.2 ≤ gz ∧
    q.2.1 + gz - lh / Real.sqrt 2 ≤ q.2.2}

/-- Modelled from the spec: the corrective loft of `label_tray` between its
rectangular YZ profiles at X-offsets `o1` (depth `2p + ls`) and `o2` (depth
`p + ls`), with `ls = lh/√2`: linear interpolation of the two rectangles. -/
def labelLoftSet (lh p gz o1 o2 : ℝ) : Set Pt :=
  {q | ∃ t : ℝ, 0 ≤ t ∧ t ≤ 1 ∧ q.1 = o1 + t * (o2 - o1) ∧
    -p ≤ q.2.1 ∧ q.2.1 ≤ lh / Real.sqrt 2 ∧ q.2.2 ≤ gz ∧
    gz - (2 * p + lh / Real.sqrt 2) + t * p ≤ q.2.2}

/-- The kernel semantics modelled from the specification's description of
each geometry operation. -/
def stdKernel : Kernel :=
  ⟨trapPrismSet, filletVertSet, chamferTopSet, chamferBotSet, shellTBSet,
    shellTopSet, labelWedgeSet, labelLoftSet⟩

/-! Spec-side definitions: the compositions as the specification words them,
to be compared with the source-translated definitions above. -/

/-- One step of the spec's X-count pass (§4.3 step 4): union a tab (profile
grown by `-dovetail_gap`) at the -Y edge at X-offset
`cell_x/2 + i·cell_x`, then subtract a slot (profile grown by
`+dovetail_gap`) at the +Y edge at the same X-offset. -/
def specStepY (g : GridSpec) (trayY : ℚ) (t : Solid) (i : ℕ) : Solid :=
  Solid.diff
    (Solid.union t
      (Solid.translate (g.grid_x/2 + (i : ℚ) * g.grid_x) 0 0
        (_grow_xy_by (_dovetail_y g) (-g.dovetail_gap))))
    (Solid.translate (g.grid_x/2 + (i : ℚ) * g.grid_x) trayY 0
      (_grow_xy_by (_dovetail_y g) g.dovetail_gap))

/-- The spec's X-count pass applied for indices `0 .. n-1`, in order. -/
def specPassY (g : GridSpec) (trayY : ℚ) (b : Solid) : ℕ → Solid
  | 0 => b
  | n + 1 => specStepY g trayY (specPassY g trayY b n) n

/-- One step of the spec's Y-count pass (§4.3 step 4, symmetric case): union
a tab at the -X edge and subtract a slot at the +X edge, at Y-offset
`cell_y/2 + j·cell_y`. -/
def specStepX (g : GridSpec) (trayX : ℚ) (t : Solid) (j : ℕ) : Solid :=
  Solid.diff
    (Solid.union t
      (Solid.translate 0 (g.grid_y/2 + (j : ℚ) * g.grid_y) 0
        (_grow_xy_by (_dovetail_x g) (-g.dovetail_gap))))
    (Solid.translate trayX (g.grid_y/2 + (j : ℚ) * g.grid_y) 0
      (_grow_xy_by (_dovetail_x g) g.dovetail_gap))

/-- The spec's Y-count pass applied for indices `0 .. n-1`, in order. -/
def specPassX (g : GridSpec) (trayX : ℚ) (b : Solid) : ℕ → Solid
  | 0 => b
  | n + 1 => specStepX g trayX (specPassX g trayX b n) n

/-- The tray composition exactly as §4.3 of the spec words it: start from the
nominal volume, fillet its vertical edges by `corner_fillet`, shrink
in-plane by `tray_gap` if and only if `tray_gap > 0`, run the X-count pass
then the Y-count pass, finally intersect with the bounding volume. -/
def traySpec (g : GridSpec) (countX countY : ℕ) : Solid :=
  let s := nominal_volume g countX countY
  let s := Solid.filletVert g.corner_fillet s
  let s := if 0 < g.tray_gap then _grow_xy_by s (-g.tray_gap) else s
  let s := specPassY g (g.grid_y * (countY : ℚ)) s countX
  let s := specPassX g (g.grid_x * (countX : ℚ)) s countY
  Solid.inter s (bounding_volume g countX countY)

/-- The dovetail profile as §4.2 of the spec words it: an isosceles-trapezoid
prism of width `width` at its centerline, leg angle `dovetail_angle`,
thickness `dovetail_protrusion + tray_gap + 2·dovetail_gap`, extruded to the
full tray height, translated along the thickness axis by
`-(dovetail_protrusion - tray_gap)/2`. -/
def specDovetailProfile (g : GridSpec) (width : ℚ) : Solid :=
  Solid.translate 0 (-(g.dovetail_protrusion - g.tray_gap)/2) 0
    (Solid.trapPrism width
      (g.dovetail_protrusion + g.tray_gap + 2 * g.dovetail_gap)
      g.dovetail_angle g.grid_z)

/-- `bounding_volume` with the dead grow call removed: the sharp-cornered
rectangular prism from `(-p, -p)` to
`(grid_x·x + p, grid_y·y + p)` at height `grid_z`, chamfered and
filleted. -/
def bounding_volume_nogrow (g : GridSpec) (x y : ℕ) : Solid :=
  Solid.filletVert g.corner_fillet
    (Solid.chamferBotF (g.dovetail_protrusion + g.chamfer_bottom)
      (Solid.chamferTopF (g.dovetail_protrusion + g.chamfer_top)
        (Solid.quad (-g.dovetail_protrusion, -g.dovetail_protrusion)
          (-g.dovetail_protrusion, g.dovetail_protrusion + g.grid_y * (y : ℚ))
          (g.dovetail_protrusion + g.grid_x * (x : ℚ),
            g.dovetail_protrusion + g.grid_y * (y : ℚ))
          (g.dovetail_protrusion + g.grid_x * (x : ℚ), -g.dovetail_protrusion)
          g.grid_z)))

/-- Left folds over `List.range` (the Python `for` loops of `_tray`) agree
with the spec's ordered pass along the X count. -/
lemma foldl_specStepY (g : GridSpec) (trayY : ℚ) (b : Solid) (n : ℕ) :
    (List.range n).foldl (specStepY g trayY) b = specPassY g trayY b n := by
  induction n with
  | zero => rfl
  | succ n ih => rw [List.range_succ, List.foldl_append, List.foldl_cons,
      List.foldl_nil, ih]; rfl

/-- Left folds over `List.range` agree with the spec's ordered pass along the
Y count. -/
lemma foldl_specStepX (g : GridSpec) (trayX : ℚ) (b : Solid) (n : ℕ) :
    (List.range n).foldl (specStepX g trayX) b = specPassX g trayX b n := by
  induction n with
  | zero => rfl
  | succ n ih => rw [List.range_succ, List.foldl_append, List.foldl_cons,
      List.foldl_nil, ih]; rfl

/-! Theorems for the structural claims. -/

/-- The default parameter set satisfies the data-model validity predicate. -/
lemma defaultGrid_valid : defaultGrid.Valid := by
  norm_num [GridSpec.Valid, defaultGrid]

/-- Claim C1: for every valid GridSpec and Extent (countX ≥ 1, countY ≥ 1),
the tray solid is built by exactly the deterministic composition of §4.3:
nominal volume, vertical-edge fillet by `corner_fillet`, in-plane shrink by
`tray_gap` iff `tray_gap > 0`, the ordered tab/slot pass along the X count
(tab grown by `-dovetail_gap` at the -Y edge at X-offset
`cell_x/2 + i·cell_x`, slot grown by `+dovetail_gap` at the +Y edge),
symmetrically along the Y count, then intersection with the bounding
volume. -/
theorem tray_composition_spec (g : GridSpec) (countX countY : ℕ)
    (hg : g.Valid) (hx : 1 ≤ countX) (hy : 1 ≤ countY) :
    _tray g countX countY = traySpec g countX countY := by
  simp only [_tray, traySpec]
  rw [← foldl_specStepY, ← foldl_specStepX]
  rfl

/-- Witness for C1: the composition equality at the default parameters for a
2×1 tray. -/
theorem tray_composition_spec_witness :
    _tray defaultGrid 2 1 = traySpec defaultGrid 2 1 :=
  tray_composition_spec defaultGrid 2 1 defaultGrid_valid (by norm_num)
    (by norm_num)

/-- Claim C5: construction fails (with the descriptive message) exactly when
`tray_gap < 0`, producing no GridSpec on that path; otherwise it succeeds
and stores every parameter unmodified, validating nothing else (negative
cell sizes, out-of-range fractions or angles are all accepted). -/
theorem init_validates_only_tray_gap (x y z tg cf ct cb dp dlf da dg : ℚ) :
    ((∃ msg, GridSpec.init x y z tg cf ct cb dp dlf da dg =
        Except.error msg) ↔ tg < 0) ∧
    (tg < 0 → GridSpec.init x y z tg cf ct cb dp dlf da dg =
      Except.error "Trays with negative gaps will not fit together.") ∧
    ∀ gOut, GridSpec.init x y z tg cf ct cb dp dlf da dg = Except.ok gOut →
      gOut = ⟨x, y, z, tg, cf, ct, cb, dp, dlf, da, dg⟩ := by
  unfold GridSpec.init
  by_cases h : tg < 0 <;> simp [h]

/-- Witness for C5: a negative `tray_gap` is rejected while wildly invalid
other parameters (negative cell size, fraction 7, angle 500) are not what
trips it. -/
theorem init_validates_only_tray_gap_witness :
    ∃ msg, GridSpec.init (-5) 15 75 (-1/10) 2 1 (3/2) (5/2) 7 500 (1/5) =
      Except.error msg :=
  (init_validates_only_tray_gap (-5) 15 75 (-1/10) 2 1 (3/2) (5/2) 7 500
    (1/5)).1.mpr (by norm_num)

/-- Claim C6: the grow/shrink operator returns, for negative amounts, the
shape minus the shell of its top/bottom faces, for positive amounts the
shape union that shell, and for zero the shape unchanged; and (in the
modelled kernel semantics) every point of the result shares its height with
a point of the input shape, so only the X/Y extent is affected. -/
theorem grow_xy_by_cases (shape : Solid) (amount : ℚ) :
    _grow_xy_by shape amount =
      (if amount < 0 then Solid.diff shape (Solid.shellTB amount shape)
       else if 0 < amount then Solid.union shape (Solid.shellTB amount shape)
       else shape) ∧
    ∀ p ∈ denote stdKernel (_grow_xy_by shape amount),
      ∃ q ∈ denote stdKernel shape, q.2.2 = p.2.2 := by
  refine ⟨rfl, ?_⟩
  intro p hp
  unfold _grow_xy_by at hp
  split_ifs at hp with h1 h2
  · exact ⟨p, hp.1, rfl⟩
  · simp only [denote, Set.mem_union] at hp
    rcases hp with hp | hp
    · exact ⟨p, hp, rfl⟩
    · simp only [stdKernel, shellTBSet, Set.mem_setOf_eq] at hp
      rcases hp with ⟨_, _, u, v, _, hq⟩ | ⟨_, hq, _⟩
      · exact ⟨_, hq, rfl⟩
      · exact ⟨p, hq, rfl⟩
  · exact ⟨p, hp, rfl⟩

/-- Witness for C6: evaluated at a unit box and amount 0, where the operator
is the identity and the origin keeps its height. -/
theorem grow_xy_by_cases_witness :
    ∃ q ∈ denote stdKernel (Solid.quad (0, 0) (0, 1) (1, 1) (1, 0) 1),
      q.2.2 = ((0 : ℝ), (0 : ℝ), (0 : ℝ)).2.2 :=
  (grow_xy_by_cases (Solid.quad (0, 0) (0, 1) (1, 1) (1, 0) 1) 0).2
    (0, 0, 0) (by norm_num [_grow_xy_by, denote, quadSet])

/-- Claim C7: the dovetail profile is the isosceles-trapezoid prism of width
`width` at its centerline, leg angle `dovetail_angle`, thickness
`dovetail_protrusion + tray_gap + 2·dovetail_gap`, extruded to the full tray
height and translated along the thickness axis by exactly
`-(dovetail_protrusion - tray_gap)/2`. -/
theorem dovetail_profile_spec (g : GridSpec) (width : ℚ) (hg : g.Valid) :
    _dovetail g width = specDovetailProfile g width := by
  unfold _dovetail specDovetailProfile
  rw [mul_comm g.dovetail_gap 2]

/-- Witness for C7: the profile equality at the default parameters and width
5. -/
theorem dovetail_profile_spec_witness :
    _dovetail defaultGrid 5 = specDovetailProfile defaultGrid 5 :=
  dovetail_profile_spec defaultGrid 5 defaultGrid_valid

/-- Counterexample for C8: with non-square cells (`grid_y = 20`), the X-axis
dovetail is not the Y-axis dovetail rotated by -90°, because the source
builds it from width `grid_y · dovetail_length_fraction`, not
`grid_x · dovetail_length_fraction`. -/
theorem dovetail_x_ne_rotated_dovetail_y :
    _dovetail_x rectGrid ≠ Solid.rotZ (-90) (_dovetail_y rectGrid) := by
  unfold _dovetail_x _dovetail_y _dovetail rectGrid
  simp only [ne_eq, Solid.rotZ.injEq, Solid.translate.injEq,
    Solid.trapPrism.injEq]
  norm_num

/-- Claim C8 as amended: the X-axis dovetail equals the dovetail profile of
width `cell_y · dovetail_length_fraction` rotated by -90° about the vertical
axis through the origin; it equals the rotated Y-axis profile exactly when
the cells are square (`cell_x = cell_y`). -/
theorem dovetail_x_spec (g : GridSpec) :
    _dovetail_x g =
      Solid.rotZ (-90) (_dovetail g (g.grid_y * g.dovetail_length_fraction)) ∧
    (g.grid_x = g.grid_y →
      _dovetail_x g = Solid.rotZ (-90) (_dovetail_y g)) := by
  refine ⟨rfl, fun h => ?_⟩
  unfold _dovetail_x _dovetail_y
  rw [h]

/-- Witness for C8: at the (square-celled) default parameters the rotated
form does hold. -/
theorem dovetail_x_spec_witness :
    _dovetail_x defaultGrid = Solid.rotZ (-90) (_dovetail_y defaultGrid) :=
  (dovetail_x_spec defaultGrid).2 rfl

/-- Claim C9: both tray-generation entry points shell the solid from its top
face (by `shell(-wall_thickness)`) exactly when `wall_thickness > 0`, and
return the unshelled solid (of the same Extent) for any non-positive
`wall_thickness`. -/
theorem wall_shelling_iff_positive (g : GridSpec) (x y : ℕ) (w lh : ℚ) :
    basic_tray g x y w =
      (if 0 < w then Solid.shellTopF (-w) (_tray g x y) else _tray g x y) ∧
    label_tray g x y w lh =
      (if 0 < w then
        Solid.shellTopF (-w)
          (Solid.diff
            (Solid.diff (_tray g x y)
              (Solid.labelWedge lh g.dovetail_protrusion g.grid_z
                (g.grid_x * (x : ℚ))))
            (Solid.labelLoft lh g.dovetail_protrusion g.grid_z
              (g.grid_x * (x : ℚ))
              (g.grid_x * (x : ℚ) - g.dovetail_protrusion - g.dovetail_gap -
                g.tray_gap)))
      else
        Solid.diff
          (Solid.diff (_tray g x y)
            (Solid.labelWedge lh g.dovetail_protrusion g.grid_z
              (g.grid_x * (x : ℚ))))
          (Solid.labelLoft lh g.dovetail_protrusion g.grid_z
            (g.grid_x * (x : ℚ))
            (g.grid_x * (x : ℚ) - g.dovetail_protrusion - g.dovetail_gap -
              g.tray_gap))) :=
  ⟨rfl, rfl⟩

/-- Claim C10: the grow of the nominal volume computed at the top of
`bounding_volume` is dead — the function equals the definition with the grow
call removed, whose pre-chamfer, pre-fillet solid is the sharp-cornered
rectangular prism from `(-p, -p)` to `(grid_x·x + p, grid_y·y + p)` at
height `grid_z`; consequently the denotation of `bounding_volume` is the
same under any two kernels that agree on chamfer and fillet, regardless of
their shell (grow) semantics. -/
theorem bounding_volume_dead_grow (g : GridSpec) (x y : ℕ) (K K2 : Kernel)
    (hf : K.filletVert = K2.filletVert) (hct : K.chamferTop = K2.chamferTop)
    (hcb : K.chamferBot = K2.chamferBot) :
    bounding_volume g x y = bounding_volume_nogrow g x y ∧
    denote K (bounding_volume g x y) = denote K2 (bounding_volume g x y) := by
  refine ⟨rfl, ?_⟩
  show denote K (bounding_volume_nogrow g x y) =
    denote K2 (bounding_volume_nogrow g x y)
  simp only [bounding_volume_nogrow, denote]
  rw [hf, hct, hcb]

/-- Witness for C10: the dead-grow equality at the default parameters for a
1×1 tray, with the modelled kernel on both sides. -/
theorem bounding_volume_dead_grow_witness :
    bounding_volume defaultGrid 1 1 = bounding_volume_nogrow defaultGrid 1 1 :=
  (bounding_volume_dead_grow defaultGrid 1 1 stdKernel stdKernel rfl rfl
    rfl).1

/-! Theorems for the semantic claims. -/

/-- Shrinking by `a ≥ 0` yields a subset of growing by `a`, under every
kernel semantics: the shrink subtracts a shell from the shape, the grow
unions one onto it. -/
lemma denote_grow_neg_subset (K : Kernel) (s : Solid) (a : ℚ) (ha : 0 ≤ a) :
    denote K (_grow_xy_by s (-a)) ⊆ denote K (_grow_xy_by s a) := by
  rcases lt_or_eq_of_le ha with h | h
  · rw [_grow_xy_by, if_pos (by linarith : (-a : ℚ) < 0),
      _grow_xy_by, if_neg (by linarith : ¬(a : ℚ) < 0), if_pos h]
    intro p hp
    simp only [denote] at hp ⊢
    exact Or.inl hp.1
  · rw [← h]
    norm_num [_grow_xy_by]

/-- Translation preserves containment of denotations. -/
lemma denote_translate_mono (K : Kernel) (dx dy dz : ℚ) {s t : Solid}
    (h : denote K s ⊆ denote K t) :
    denote K (Solid.translate dx dy dz s) ⊆
      denote K (Solid.translate dx dy dz t) := by
  intro p hp
  exact h hp

/-- Claim C2: with `dovetail_gap ≥ 0`, the tab solid (profile grown by
`-dovetail_gap`) is contained in the slot solid (profile grown by
`+dovetail_gap`) when both are placed at the same position — for either
axis profile, at every placement offset, and under every kernel
semantics. -/
theorem tab_fits_in_slot (K : Kernel) (g : GridSpec) (dx dy dz : ℚ)
    (hdg : 0 ≤ g.dovetail_gap) :
    denote K (Solid.translate dx dy dz
        (_grow_xy_by (_dovetail_y g) (-g.dovetail_gap))) ⊆
      denote K (Solid.translate dx dy dz
        (_grow_xy_by (_dovetail_y g) g.dovetail_gap)) ∧
    denote K (Solid.translate dx dy dz
        (_grow_xy_by (_dovetail_x g) (-g.dovetail_gap))) ⊆
      denote K (Solid.translate dx dy dz
        (_grow_xy_by (_dovetail_x g) g.dovetail_gap)) :=
  ⟨denote_translate_mono K dx dy dz
      (denote_grow_neg_subset K (_dovetail_y g) g.dovetail_gap hdg),
    denote_translate_mono K dx dy dz
      (denote_grow_neg_subset K (_dovetail_x g) g.dovetail_gap hdg)⟩

/-- Witness for C2: the tab/slot containment at the default parameters, at
the first Y-edge position, under the modelled kernel. -/
theorem tab_fits_in_slot_witness :
    denote stdKernel (Solid.translate (15/2) 0 0
        (_grow_xy_by (_dovetail_y defaultGrid) (-defaultGrid.dovetail_gap))) ⊆
      denote stdKernel (Solid.translate (15/2) 0 0
        (_grow_xy_by (_dovetail_y defaultGrid) defaultGrid.dovetail_gap)) :=
  (tab_fits_in_slot stdKernel defaultGrid (15/2) 0 0
    (by norm_num [defaultGrid])).1

/-- Claim C4: the tray solid intersected with the bounding volume equals the
tray solid itself — the final clipping step of `_tray` is idempotent, under
every kernel semantics. -/
theorem tray_clip_idempotent (K : Kernel) (g : GridSpec) (x y : ℕ)
    (hg : g.Valid) (hx : 1 ≤ x) (hy : 1 ≤ y) :
    denote K (_tray g x y) ∩ denote K (bounding_volume g x y) =
      denote K (_tray g x y) := by
  obtain ⟨T, hT⟩ : ∃ T, _tray g x y = Solid.inter T (bounding_volume g x y) :=
    ⟨_, rfl⟩
  rw [hT]
  simp only [denote]
  rw [Set.inter_assoc, Set.inter_self]

/-- Witness for C4: the clipping idempotence at the default parameters for a
1×1 tray, under the modelled kernel. -/
theorem tray_clip_idempotent_witness :
    denote stdKernel (_tray defaultGrid 1 1) ∩
        denote stdKernel (bounding_volume defaultGrid 1 1) =
      denote stdKernel (_tray defaultGrid 1 1) :=
  tray_clip_idempotent stdKernel defaultGrid 1 1 defaultGrid_valid
    (by norm_num) (by norm_num)

/-! Containment of the nominal volume in the bounding volume (claim C3). -/

/-- Two-sided bound from a squared bound. -/
lemma le_of_sq_le_sq (u b : ℝ) (hb : 0 ≤ b) (h : u^2 ≤ b^2) :
    -b ≤ u ∧ u ≤ b := by
  constructor <;> nlinarith

/-- A point of the expanded rectangular prism survives the modelled top
chamfer of size `pr` when it is at least `pr` below the top, or lies over
the nominal footprint. -/
lemma mem_chamferTop_rect (pr GX GY gz x y z : ℝ) (hp : 0 ≤ pr)
    (hx1 : -pr ≤ x) (hx2 : x ≤ pr + GX) (hy1 : -pr ≤ y) (hy2 : y ≤ pr + GY)
    (hz1 : 0 ≤ z) (hz2 : z ≤ gz)
    (hcase : z + pr ≤ gz ∨ (0 ≤ x ∧ x ≤ GX ∧ 0 ≤ y ∧ y ≤ GY)) :
    (x, y, z) ∈ chamferTopSet pr
      {q : Pt | -pr ≤ q.1 ∧ q.1 ≤ pr + GX ∧ -pr ≤ q.2.1 ∧ q.2.1 ≤ pr + GY ∧
        0 ≤ q.2.2 ∧ q.2.2 ≤ gz} := by
  simp only [chamferTopSet, Set.mem_setOf_eq]
  refine ⟨⟨hx1, hx2, hy1, hy2, hz1, hz2⟩, ?_⟩
  intro u v e he0 hec huv
  rcases hcase with hcase | ⟨hx0, hxG, hy0, hyG⟩
  · exact Or.inr ⟨hx1, hx2, hy1, hy2, by linarith, by linarith⟩
  · left
    have hpe : 0 ≤ pr - e := by linarith
    have hu := le_of_sq_le_sq u (pr - e) hpe (by nlinarith [sq_nonneg v])
    have hv := le_of_sq_le_sq v (pr - e) hpe (by nlinarith [sq_nonneg u])
    exact ⟨by linarith [hu.1], by linarith [hu.2], by linarith [hv.1],
      by linarith [hv.2], hz1, hz2⟩

/-- A point survives the modelled bottom chamfer after the top chamfer when
it is at least `pr` away from both the top and the bottom, or lies over the
nominal footprint (using `2·pr ≤ gz`). -/
lemma mem_chamferBot_rect (pr GX GY gz x y z : ℝ) (hp : 0 ≤ pr)
    (h2p : 2 * pr ≤ gz)
    (hx1 : -pr ≤ x) (hx2 : x ≤ pr + GX) (hy1 : -pr ≤ y) (hy2 : y ≤ pr + GY)
    (hz1 : 0 ≤ z) (hz2 : z ≤ gz)
    (hcase : (pr ≤ z ∧ z + pr ≤ gz) ∨ (0 ≤ x ∧ x ≤ GX ∧ 0 ≤ y ∧ y ≤ GY)) :
    (x, y, z) ∈ chamferBotSet pr (chamferTopSet pr
      {q : Pt | -pr ≤ q.1 ∧ q.1 ≤ pr + GX ∧ -pr ≤ q.2.1 ∧ q.2.1 ≤ pr + GY ∧
        0 ≤ q.2.2 ∧ q.2.2 ≤ gz}) := by
  simp only [chamferBotSet, Set.mem_setOf_eq]
  rcases hcase with ⟨hzp, hzg⟩ | ⟨hx0, hxG, hy0, hyG⟩
  · refine ⟨mem_chamferTop_rect pr GX GY gz x y z hp hx1 hx2 hy1 hy2 hz1 hz2
      (Or.inl hzg), ?_⟩
    intro u v e he0 hec huv
    exact Or.inr (mem_chamferTop_rect pr GX GY gz x y (z - e) hp hx1 hx2 hy1
      hy2 (by linarith) (by linarith) (Or.inl (by linarith)))
  · refine ⟨mem_chamferTop_rect pr GX GY gz x y z hp hx1 hx2 hy1 hy2 hz1 hz2
      (Or.inr ⟨hx0, hxG, hy0, hyG⟩), ?_⟩
    intro u v e he0 hec huv
    by_cases hez : e ≤ z
    · exact Or.inr (mem_chamferTop_rect pr GX GY gz x y (z - e) hp hx1 hx2
        hy1 hy2 (by linarith) (by linarith) (Or.inr ⟨hx0, hxG, hy0, hyG⟩))
    · push_neg at hez
      have hpe : 0 ≤ pr - e := by linarith
      have hu := le_of_sq_le_sq u (pr - e) hpe (by nlinarith [sq_nonneg v])
      have hv := le_of_sq_le_sq v (pr - e) hpe (by nlinarith [sq_nonneg u])
      exact Or.inl (mem_chamferTop_rect pr GX GY gz (x + u) (y + v) z hp
        (by linarith [hu.1]) (by linarith [hu.2]) (by linarith [hv.1])
        (by linarith [hv.2]) hz1 hz2 (Or.inl (by linarith)))

/-- A point over the nominal footprint survives the modelled vertical-edge
fillet of radius `r ≤ pr` applied after both chamfers: the in-plane disk of
radius `r` around it stays in the expanded footprint, at mid-height. -/
lemma mem_filletVert_rect (pr GX GY gz r x y z : ℝ) (hp : 0 ≤ pr)
    (h2p : 2 * pr ≤ gz) (hr0 : 0 ≤ r) (hrp : r ≤ pr)
    (hx0 : 0 ≤ x) (hxG : x ≤ GX) (hy0 : 0 ≤ y) (hyG : y ≤ GY)
    (hz1 : 0 ≤ z) (hz2 : z ≤ gz) :
    (x, y, z) ∈ filletVertSet r (chamferBotSet pr (chamferTopSet pr
      {q : Pt | -pr ≤ q.1 ∧ q.1 ≤ pr + GX ∧ -pr ≤ q.2.1 ∧ q.2.1 ≤ pr + GY ∧
        0 ≤ q.2.2 ∧ q.2.2 ≤ gz})) := by
  simp only [filletVertSet, Set.mem_setOf_eq]
  refine ⟨mem_chamferBot_rect pr GX GY gz x y z hp h2p (by linarith)
    (by linarith) (by linarith) (by linarith) hz1 hz2
    (Or.inr ⟨hx0, hxG, hy0, hyG⟩), x, y, by nlinarith [sq_nonneg r], ?_⟩
  intro q1 q2 hq
  have hq1 := le_of_sq_le_sq (q1 - x) r hr0 (by nlinarith [sq_nonneg (q2 - y)])
  have hq2 := le_of_sq_le_sq (q2 - y) r hr0 (by nlinarith [sq_nonneg (q1 - x)])
  exact ⟨gz/2, mem_chamferBot_rect pr GX GY gz q1 q2 (gz/2) hp h2p
    (by linarith [hq1.1]) (by linarith [hq1.2]) (by linarith [hq2.1])
    (by linarith [hq2.2]) (by linarith) (by linarith)
    (Or.inl ⟨by linarith, by linarith⟩)⟩

/-- Counterexample for C3: at the default parameters (`chamfer_top = 1`),
the point `(0, 7.5, 75)` — the middle of the nominal volume's top-west
edge — lies in the nominal volume but not in the bounding volume: the top
chamfer of size `dovetail_protrusion + chamfer_top = 3.5` cuts past the
nominal boundary. -/
theorem bounding_not_superset_nominal :
    ((0 : ℝ), 15/2, 75) ∈ denote stdKernel (nominal_volume defaultGrid 1 1) ∧
    ((0 : ℝ), 15/2, 75) ∉ denote stdKernel (bounding_volume defaultGrid 1 1)
    := by
  constructor
  · norm_num [denote, nominal_volume, quadSet, defaultGrid, min_le_iff,
      le_max_iff]
  · intro h
    simp only [bounding_volume, denote, stdKernel, defaultGrid] at h
    obtain ⟨h1, -⟩ := h
    obtain ⟨h2, -⟩ := h1
    obtain ⟨-, h3⟩ := h2
    have h4 := h3 (-33/10) 0 (1/5) (by norm_num) (by norm_num)
      (by norm_num)
    rcases h4 with h4 | h4 <;>
      · simp only [quadSet, Set.mem_setOf_eq, min_le_iff, le_max_iff] at h4
        norm_num at h4

/-- Claim C3 as amended: the bounding volume contains the nominal volume
provided the extra chamfers are zero (`chamfer_top = chamfer_bottom = 0`,
so the bounding chamfers of size `dovetail_protrusion` stop exactly at the
nominal boundary), the corner fillet does not exceed the protrusion, and
the tray is at least `2·dovetail_protrusion` tall. -/
theorem bounding_contains_nominal_amended (g : GridSpec) (x y : ℕ)
    (hg : g.Valid) (hx : 1 ≤ x) (hy : 1 ≤ y)
    (hct : g.chamfer_top = 0) (hcb : g.chamfer_bottom = 0)
    (hrp : g.corner_fillet ≤ g.dovetail_protrusion)
    (hz : 2 * g.dovetail_protrusion ≤ g.grid_z) :
    denote stdKernel (nominal_volume g x y) ⊆
      denote stdKernel (bounding_volume g x y) := by
  obtain ⟨hgx, hgy, hgz, htg, hcf, -, -, hdp, -⟩ := hg
  have hgxR : (0:ℝ) ≤ (g.grid_x : ℝ) * (x : ℝ) := by
    have h1 : (0:ℝ) ≤ (g.grid_x : ℝ) := by exact_mod_cast le_of_lt hgx
    positivity
  have hgyR : (0:ℝ) ≤ (g.grid_y : ℝ) * (y : ℝ) := by
    have h1 : (0:ℝ) ≤ (g.grid_y : ℝ) := by exact_mod_cast le_of_lt hgy
    positivity
  have hdpR : (0:ℝ) ≤ (g.dovetail_protrusion : ℝ) := by
    exact_mod_cast le_of_lt hdp
  have hcfR : (0:ℝ) ≤ (g.corner_fillet : ℝ) := by exact_mod_cast hcf
  have hrpR : (g.corner_fillet : ℝ) ≤ (g.dovetail_protrusion : ℝ) := by
    exact_mod_cast hrp
  have hzR : 2 * (g.dovetail_protrusion : ℝ) ≤ (g.grid_z : ℝ) := by
    exact_mod_cast hz
  intro pt hpt
  obtain ⟨px, py, pz⟩ := pt
  simp only [nominal_volume, denote, quadSet, Set.mem_setOf_eq] at hpt
  push_cast at hpt
  simp only [min_self, max_self] at hpt
  rw [min_eq_left hgxR, max_eq_right hgxR, min_comm ((g.grid_y : ℝ) * y) 0,
    min_self, min_eq_left hgyR, max_comm ((g.grid_y : ℝ) * y) 0, max_self,
    max_eq_right hgyR] at hpt
  obtain ⟨hq1, hq2, hq3, hq4, hq5, hq6⟩ := hpt
  simp only [bounding_volume, denote, stdKernel, hct, hcb, add_zero]
  have hquadB : quadSet (-g.dovetail_protrusion, -g.dovetail_protrusion)
      (-g.dovetail_protrusion,
        g.dovetail_protrusion + g.grid_y * (y : ℚ))
      (g.dovetail_protrusion + g.grid_x * (x : ℚ),
        g.dovetail_protrusion + g.grid_y * (y : ℚ))
      (g.dovetail_protrusion + g.grid_x * (x : ℚ), -g.dovetail_protrusion)
      g.grid_z =
      {q : Pt | -(g.dovetail_protrusion : ℝ) ≤ q.1 ∧
        q.1 ≤ (g.dovetail_protrusion : ℝ) + (g.grid_x : ℝ) * (x : ℝ) ∧
        -(g.dovetail_protrusion : ℝ) ≤ q.2.1 ∧
        q.2.1 ≤ (g.dovetail_protrusion : ℝ) + (g.grid_y : ℝ) * (y : ℝ) ∧
        0 ≤ q.2.2 ∧ q.2.2 ≤ (g.grid_z : ℝ)} := by
    ext q
    simp only [quadSet, Set.mem_setOf_eq]
    push_cast
    rw [min_self, max_self, min_self, max_self,
      min_eq_left (by linarith :
        -(g.dovetail_protrusion : ℝ) ≤
          (g.dovetail_protrusion : ℝ) + (g.grid_x : ℝ) * (x : ℝ)),
      max_eq_right (by linarith :
        -(g.dovetail_protrusion : ℝ) ≤
          (g.dovetail_protrusion : ℝ) + (g.grid_x : ℝ) * (x : ℝ)),
      min_comm ((g.dovetail_protrusion : ℝ) + (g.grid_y : ℝ) * (y : ℝ))
        (-(g.dovetail_protrusion : ℝ)),
      min_self,
      min_eq_left (by linarith :
        -(g.dovetail_protrusion : ℝ) ≤
          (g.dovetail_protrusion : ℝ) + (g.grid_y : ℝ) * (y : ℝ)),
      max_comm ((g.dovetail_protrusion : ℝ) + (g.grid_y : ℝ) * (y : ℝ))
        (-(g.dovetail_protrusion : ℝ)),
      max_self,
      max_eq_right (by linarith :
        -(g.dovetail_protrusion : ℝ) ≤
          (g.dovetail_protrusion : ℝ) + (g.grid_y : ℝ) * (y : ℝ))]
  rw [hquadB]
  exact mem_filletVert_rect (g.dovetail_protrusion : ℝ)
    ((g.grid_x : ℝ) * (x : ℝ)) ((g.grid_y : ℝ) * (y : ℝ)) (g.grid_z : ℝ)
    (g.corner_fillet : ℝ) px py pz hdpR hzR hcfR hrpR hq1 hq2 hq3 hq4 hq5 hq6

/-- Witness for C3 as amended: the containment at the default parameters
with zero extra chamfers, for a 1×1 tray. -/
theorem bounding_contains_nominal_amended_witness :
    denote stdKernel (nominal_volume flushGrid 1 1) ⊆
      denote stdKernel (bounding_volume flushGrid 1 1) :=
  bounding_contains_nominal_amended flushGrid 1 1
    (by norm_num [GridSpec.Valid, flushGrid]) (by norm_num) (by norm_num)
    rfl rfl (by norm_num [flushGrid]) (by norm_num [flushGrid])

end StorageGrid
